import Mathlib

/-!
Shallow embedding of `src/client/src/pages/subscribe.tsx`: the subscription
checkout page. The page parses a `tier` query parameter, checks that the
Stripe publishable key is configured, asks the backend for a checkout
session, and either redirects the browser to the returned URL or stores an
error message; independently it injects SEO metadata into the document.
-/

set_option autoImplicit false

namespace Subscribe

/-- Modelled from the spec: the `SubscriptionTier` enumeration imported from
`@shared/schema` (a file not present in the repository sources). Per the spec
it is "an enumerated value (e.g., Basic/Pro/Power) parsed from a query
parameter"; it is represented here by its string values, as a TypeScript
string enum is at runtime. -/
def SubscriptionTier.Basic : String := "basic"

/-- Modelled from the spec: the Pro member of the tier enumeration. -/
def SubscriptionTier.Pro : String := "pro"

/-- Modelled from the spec: the Power member of the tier enumeration. -/
def SubscriptionTier.Power : String := "power"

/-- Modelled from the spec: the list of recognized tier names
(Basic/Pro/Power). -/
def recognizedTiers : List String :=
  [SubscriptionTier.Basic, SubscriptionTier.Pro, SubscriptionTier.Power]

/-- Line 22: `const tier = params.get("tier") as SubscriptionTier ||
SubscriptionTier.Basic;`. `params.get` yields `null` when the parameter is
absent (`none` here); the TypeScript `as` cast has no runtime effect, and
`||` falls back to `Basic` exactly when its left operand is falsy, i.e. for
`null` and for the empty string. Any other string passes through unchanged. -/
def parseTier (q : Option String) : String :=
  match q with
  | none => SubscriptionTier.Basic
  | some s => if s = "" then SubscriptionTier.Basic else s

/-- Line 13: `const isStripeAvailable = !!import.meta.env.VITE_STRIPE_PUBLIC_KEY;`
as a predicate of the environment value: double negation of JS truthiness,
false exactly when the variable is undefined (`none`) or the empty string. -/
def isStripeAvailableOf (key : Option String) : Bool :=
  match key with
  | none => false
  | some s => !(s == "")

/-- The module-level state captured when `subscribe.tsx` is evaluated:
line 13 runs once, at module load, and its result is a module constant. -/
structure ModuleState where
  isStripeAvailable : Bool
  deriving DecidableEq, Repr

/-- Evaluation of the module of `subscribe.tsx`: computes the
`isStripeAvailable` constant from the environment current at load time. -/
def moduleLoad (key : Option String) : ModuleState :=
  { isStripeAvailable := isStripeAvailableOf key }

/-- A value rejected by `createSubscription`: either a JS `Error` carrying a
`message`, or some non-`Error` value. -/
inductive JsError where
  | jsErr (message : String)
  | nonError
  deriving DecidableEq, Repr

/-- The behaviour of the external `createSubscription(tier)` call (see §6 of
the spec): it resolves with an object whose `url` field may be a string or
absent, or rejects with a value. -/
inductive CheckoutOutcome where
  | resolved (url : Option String)
  | rejected (err : JsError)
  deriving DecidableEq, Repr

/-- One observable step performed by the checkout effect (lines 75-110):
React state setters, the home navigation, the external call, and the
assignment to `window.location.href`. -/
inductive Ev where
  | setError (msg : String)
  | setIsLoading (b : Bool)
  | setLocation (url : String)
  | navigateHome
  | callCreateSubscription (tier : String)
  deriving DecidableEq, Repr

/-- Line 84: the fixed configuration error message. -/
def cfgErrorMsg : String :=
  "Payment system is not configured. Please contact the administrator."

/-- Line 99: the message stored when the backend returns no usable URL. -/
def noUrlMsg : String := "Failed to create checkout session"

/-- Line 104: the generic fallback message for a non-`Error` rejection. -/
def genericFailMsg : String := "Failed to create subscription"

/-- Lines 95-101: `if (url) { window.location.href = url; } else {
setError(...); setIsLoading(false); }` — `url` is truthy iff present and
non-empty. -/
def urlBranch : Option String → List Ev
  | some u => if u = "" then [Ev.setError noUrlMsg, Ev.setIsLoading false]
              else [Ev.setLocation u]
  | none => [Ev.setError noUrlMsg, Ev.setIsLoading false]

/-- The body of the `try` block (lines 92-101): the call to
`createSubscription(tier)` happens first; if the promise rejects, the `await`
rethrows (second component); otherwise the url branch runs. -/
def tryBody (tier : String) (o : CheckoutOutcome) : List Ev × Option JsError :=
  match o with
  | CheckoutOutcome.resolved url => (Ev.callCreateSubscription tier :: urlBranch url, none)
  | CheckoutOutcome.rejected e => ([Ev.callCreateSubscription tier], some e)

/-- Lines 102-106, the `catch (err)` handler:
`setError(err instanceof Error ? err.message : "Failed to create subscription")`
then `setIsLoading(false)`. The handler itself throws nothing (second
component `none`). -/
def catchHandler (err : JsError) : List Ev × Option JsError :=
  ([Ev.setError (match err with
                 | JsError.jsErr m => m
                 | JsError.nonError => genericFailMsg),
    Ev.setIsLoading false], none)

/-- Lines 90-107, `setupSubscription`: run the `try` body; if it threw, run
the `catch` handler on the thrown value. The second component is the
exception escaping the whole function, if any. -/
def setupSubscription (tier : String) (o : CheckoutOutcome) :
    List Ev × Option JsError :=
  match tryBody tier o with
  | (evs, none) => (evs, none)
  | (evs, some e) =>
    let h := catchHandler e
    (evs ++ h.1, h.2)

/-- The checkout effect, lines 75-110: guard on authentication (lines 77-80),
then on `isStripeAvailable` (lines 83-87), then `setupSubscription()`.
Returns the events performed and the exception escaping to the host, if
any. -/
def effectRun (isAuthenticated stripeAvailable : Bool) (tier : String)
    (o : CheckoutOutcome) : List Ev × Option JsError :=
  if !isAuthenticated then ([Ev.navigateHome], none)
  else if !stripeAvailable then
    ([Ev.setError cfgErrorMsg, Ev.setIsLoading false], none)
  else setupSubscription tier o

/-- The events performed by one run of the checkout effect. -/
def effectTrace (isAuthenticated stripeAvailable : Bool) (tier : String)
    (o : CheckoutOutcome) : List Ev :=
  (effectRun isAuthenticated stripeAvailable tier o).1

/-- The page-level state the events act on: the two `useState` hooks
(lines 16-17), `window.location.href`, whether `navigate("/")` ran, and the
arguments of the `createSubscription` calls made. -/
structure FlowState where
  isLoading : Bool
  error : Option String
  location : Option String
  navigatedHome : Bool
  calledWith : List String
  deriving DecidableEq, Repr

/-- Lines 16-17: `useState(true)` and `useState<string | null>(null)`;
no navigation or call has happened yet. -/
def initialState : FlowState :=
  { isLoading := true, error := none, location := none,
    navigatedHome := false, calledWith := [] }

/-- The effect of one event on the page state. -/
def applyEv (st : FlowState) : Ev → FlowState
  | Ev.setError m => { st with error := some m }
  | Ev.setIsLoading b => { st with isLoading := b }
  | Ev.setLocation u => { st with location := some u }
  | Ev.navigateHome => { st with navigatedHome := true }
  | Ev.callCreateSubscription t => { st with calledWith := st.calledWith ++ [t] }

/-- The page state after one run of the checkout effect. -/
def runEffect (isAuthenticated stripeAvailable : Bool) (tier : String)
    (o : CheckoutOutcome) : FlowState :=
  List.foldl applyEv initialState
    (effectTrace isAuthenticated stripeAvailable tier o)

/-- What the component renders, lines 112-165: `null`, the loading screen,
the error card, or the fallback "Redirecting to Checkout" card. -/
inductive Screen where
  | nothing
  | loading
  | errorCard (message : String)
  | redirectFallback
  deriving DecidableEq, Repr

/-- Lines 112-165: `return null` when unauthenticated; the loading screen
while `isLoading`; the error card when `error` is truthy (non-null and
non-empty); otherwise the fallback redirect screen. -/
def render (isAuthenticated : Bool) (st : FlowState) : Screen :=
  if !isAuthenticated then Screen.nothing
  else if st.isLoading then Screen.loading
  else match st.error with
    | some m => if m = "" then Screen.redirectFallback else Screen.errorCard m
    | none => Screen.redirectFallback

set_option linter.unusedVariables false in
/-- Two executions of the checkout flow within one lifetime of the module.
Line 13 evaluates `isStripeAvailable` once, at module evaluation, from the
environment current at that moment (`keyAtLoad`); both executions read the
resulting constant, even if the environment holds `keyAtRun2` by the time
of the second execution. -/
def twoRuns (keyAtLoad keyAtRun2 : Option String) (isAuthenticated : Bool)
    (tier : String) (o1 o2 : CheckoutOutcome) : FlowState × FlowState :=
  let m := moduleLoad keyAtLoad
  (runEffect isAuthenticated m.isStripeAvailable tier o1,
   runEffect isAuthenticated m.isStripeAvailable tier o2)

/-- A `<script>` element as the SEO effect manipulates it: its `id`, its
`type` attribute and its text content. -/
structure SchemaScript where
  id : String
  type : String
  textContent : String
  deriving DecidableEq, Repr

/-- The parts of the global document the SEO effect (lines 26-73) touches:
the title, the `content` of a `meta[name="description"]` tag when one
exists, and the `<head>` element's script children when `<head>` exists. -/
structure Doc where
  title : String
  metaDescription : Option String
  head : Option (List SchemaScript)
  deriving DecidableEq, Repr

/-- Line 28: the fixed page title. -/
def pageTitle : String := "Upgrade Your Plan - AI LaTeX Generator"

/-- Lines 33-34: the description written into an existing meta tag. -/
def pageDescription : String :=
  "Upgrade your AI LaTeX Generator subscription plan. Choose from Basic, Pro, and Power plans to unlock more document generations per month."

/-- Line 40 / 47: the fixed identifier of the structured-data script. -/
def schemaId : String := "subscription-schema"

/-- Line 70: `JSON.stringify(schemaData)` for the Product schema object of
lines 50-68 (compact JSON, key order as written). -/
def schemaJson : String :=
  "\x7b\"@context\":\"https://schema.org\",\"@type\":\"Product\",\"name\":\"AI LaTeX Generator Subscription\",\"description\":\"Subscribe to AI LaTeX Generator and create professional LaTeX documents with AI assistance\",\"offers\":\x7b\"@type\":\"AggregateOffer\",\"lowPrice\":\"0.99\",\"highPrice\":\"19.99\",\"priceCurrency\":\"USD\",\"offerCount\":\"5\"\x7d,\"category\":\"Software Subscription\",\"image\":\"https://aitexgen.com/subscription.png\",\"brand\":\x7b\"@type\":\"Brand\",\"name\":\"AI LaTeX Generator\"\x7d\x7d"

/-- Lines 45-47 and 70: the freshly created script element. -/
def schemaScriptNode : SchemaScript :=
  { id := schemaId, type := "application/ld+json", textContent := schemaJson }

/-- `document.querySelector` + `.remove()` (lines 40-43): remove the first
script whose `id` matches, if any; leave the rest untouched. -/
def removeFirstById (i : String) : List SchemaScript → List SchemaScript
  | [] => []
  | n :: ns => if n.id = i then ns else n :: removeFirstById i ns

/-- The SEO effect of lines 26-73: set the title; update the description
meta tag only if one exists (lines 31-35); and, only if `<head>` exists
(line 39), remove any existing `script#subscription-schema` (lines 40-43)
and append the fresh one (line 71). -/
def injectMetadata (d : Doc) : Doc :=
  let d1 : Doc := { d with title := pageTitle }
  let d2 : Doc :=
    match d1.metaDescription with
    | some _ => { d1 with metaDescription := some pageDescription }
    | none => d1
  match d2.head with
  | none => d2
  | some ns => { d2 with head := some (removeFirstById schemaId ns ++ [schemaScriptNode]) }

/-- The number of script nodes with identifier `i` in the document. -/
def countById (i : String) (d : Doc) : Nat :=
  match d.head with
  | none => 0
  | some ns => ns.countP (fun n => n.id == i)

/-- Whether an event is a `setError` call (entry into the error display). -/
def isSetErrorEv : Ev → Bool
  | Ev.setError _ => true
  | _ => false

/-- Whether an event is the `window.location.href` assignment (the external
redirect). -/
def isSetLocationEv : Ev → Bool
  | Ev.setLocation _ => true
  | _ => false

/-! ## Helper lemmas -/

lemma countP_removeFirstById_eq_zero (i : String) (ns : List SchemaScript)
    (h : ns.countP (fun n => n.id == i) ≤ 1) :
    (removeFirstById i ns).countP (fun n => n.id == i) = 0 := by
  induction ns with
  | nil => simp [removeFirstById]
  | cons n ns ih =>
    by_cases hn : n.id = i
    · have h1 : removeFirstById i (n :: ns) = ns := by simp [removeFirstById, hn]
      have h2 : (n.id == i) = true := beq_iff_eq.mpr hn
      rw [h1]
      rw [List.countP_cons, h2, if_pos rfl] at h
      omega
    · have h2 : (n.id == i) = false := beq_eq_false_iff_ne.mpr hn
      have h1 : removeFirstById i (n :: ns) = n :: removeFirstById i ns := by
        simp [removeFirstById, hn]
      have hfalse : ¬ (false = true) := by decide
      rw [h1, List.countP_cons, h2, if_neg hfalse, Nat.add_zero]
      rw [List.countP_cons, h2, if_neg hfalse, Nat.add_zero] at h
      exact ih h

lemma injectMetadata_step (d : Doc) (hh : d.head.isSome)
    (hc : countById schemaId d ≤ 1) :
    countById schemaId (injectMetadata d) = 1 ∧ (injectMetadata d).head.isSome := by
  obtain ⟨t, md, hd⟩ := d
  match hd with
  | none => simp at hh
  | some ns =>
    have hns : List.countP (fun n => n.id == schemaId) ns ≤ 1 := by
      simpa [countById] using hc
    cases md <;>
      simp [injectMetadata, countById, List.countP_append,
        countP_removeFirstById_eq_zero schemaId ns hns, schemaScriptNode,
        List.countP_cons]

lemma injectMetadata_iterate_aux (m : Nat) (d : Doc) (hh : d.head.isSome)
    (hc : countById schemaId d ≤ 1) :
    countById schemaId (injectMetadata^[m + 1] d) = 1 := by
  induction m generalizing d with
  | zero => simpa using (injectMetadata_step d hh hc).1
  | succ k ih =>
    rw [Function.iterate_succ_apply]
    exact ih (injectMetadata d) (injectMetadata_step d hh hc).2
      (le_of_eq (injectMetadata_step d hh hc).1)

/-! ## Claim theorems -/

/-- C8: metadata injection is idempotent — starting from a document that has
a `<head>` and at most one `script#subscription-schema` node (as the real
page document does), running the SEO effect any number `n ≥ 1` of times
leaves exactly one script node with the identifier `subscription-schema`,
because the effect removes the prior node before appending the new one. -/
theorem metadata_injection_idempotent (d : Doc) (hh : d.head.isSome)
    (hc : countById schemaId d ≤ 1) (n : Nat) (hn : 1 ≤ n) :
    countById schemaId (injectMetadata^[n] d) = 1 := by
  obtain ⟨m, rfl⟩ : ∃ m, n = m + 1 := ⟨n - 1, by omega⟩
  exact injectMetadata_iterate_aux m d hh hc

/-- Witness for C8: the theorem applied to a document with an empty head and
two injections. -/
theorem metadata_injection_idempotent_witness :
    countById schemaId
      (injectMetadata^[2] { title := "", metaDescription := none, head := some [] }) = 1 :=
  metadata_injection_idempotent
    { title := "", metaDescription := none, head := some [] }
    rfl (by decide) 2 (by decide)

/-- C3: for an authenticated session, when the publishable key is absent or
empty (`isStripeAvailableOf key = false`), the run ends in the error state
with the fixed configuration message, the error card is rendered, and
`createSubscription` is never called. -/
theorem config_missing_no_call (key : Option String)
    (h : isStripeAvailableOf key = false) (tier : String) (o : CheckoutOutcome) :
    (runEffect true (isStripeAvailableOf key) tier o).error = some cfgErrorMsg ∧
    (runEffect true (isStripeAvailableOf key) tier o).isLoading = false ∧
    render true (runEffect true (isStripeAvailableOf key) tier o) =
      Screen.errorCard cfgErrorMsg ∧
    (runEffect true (isStripeAvailableOf key) tier o).calledWith = [] ∧
    ∀ t : String,
      Ev.callCreateSubscription t ∉ effectTrace true (isStripeAvailableOf key) tier o := by
  rw [h]
  refine ⟨rfl, rfl, by simp [render, runEffect, effectTrace, effectRun, applyEv,
    initialState, cfgErrorMsg], rfl, ?_⟩
  intro t
  simp [effectTrace, effectRun]

/-- Witness for C3: the key absent at run time. -/
theorem config_missing_no_call_witness :
    (runEffect true (isStripeAvailableOf none) "basic"
        (CheckoutOutcome.resolved (some "https://pay.example/a"))).error =
      some cfgErrorMsg ∧
    (runEffect true (isStripeAvailableOf none) "basic"
        (CheckoutOutcome.resolved (some "https://pay.example/a"))).calledWith = [] :=
  ⟨(config_missing_no_call none rfl "basic"
      (CheckoutOutcome.resolved (some "https://pay.example/a"))).1,
   (config_missing_no_call none rfl "basic"
      (CheckoutOutcome.resolved (some "https://pay.example/a"))).2.2.2.1⟩

/-- C4: a rejection with an `Error` whose message is "card declined" ends in
the error state with that message; a rejection with a non-`Error` value ends
in the error state with the generic "Failed to create subscription" message;
and no run of the effect lets an exception escape to the host. -/
theorem rejection_handling (tier : String) :
    (runEffect true true tier
        (CheckoutOutcome.rejected (JsError.jsErr "card declined"))).error =
      some "card declined" ∧
    render true (runEffect true true tier
        (CheckoutOutcome.rejected (JsError.jsErr "card declined"))) =
      Screen.errorCard "card declined" ∧
    (runEffect true true tier
        (CheckoutOutcome.rejected JsError.nonError)).error =
      some "Failed to create subscription" ∧
    render true (runEffect true true tier
        (CheckoutOutcome.rejected JsError.nonError)) =
      Screen.errorCard "Failed to create subscription" ∧
    ∀ (a b : Bool) (o : CheckoutOutcome), (effectRun a b tier o).2 = none := by
  refine ⟨rfl, by simp [render, runEffect, effectTrace, effectRun,
    setupSubscription, tryBody, catchHandler, applyEv, initialState], rfl,
    by simp [render, runEffect, effectTrace, effectRun, setupSubscription,
      tryBody, catchHandler, applyEv, initialState, genericFailMsg], ?_⟩
  intro a b o
  cases a <;> cases b <;> cases o <;>
    simp [effectRun, setupSubscription, tryBody, catchHandler]

/-- C5: when the request resolves with a non-empty URL, the browser location
is set to exactly that URL, the error field stays `none`, and no `setError`
occurs in the run. -/
theorem redirect_on_url (tier url : String) (h : url ≠ "") :
    (runEffect true true tier (CheckoutOutcome.resolved (some url))).location =
      some url ∧
    (runEffect true true tier (CheckoutOutcome.resolved (some url))).error = none ∧
    (effectTrace true true tier
        (CheckoutOutcome.resolved (some url))).countP isSetErrorEv = 0 := by
  refine ⟨?_, ?_, ?_⟩ <;>
    simp [runEffect, effectTrace, effectRun, setupSubscription, tryBody,
      urlBranch, h, applyEv, initialState, isSetErrorEv, List.countP_cons]

/-- Witness for C5: the spec's example URL. -/
theorem redirect_on_url_witness :
    (runEffect true true "basic"
        (CheckoutOutcome.resolved (some "https://pay.example/session/abc"))).location =
      some "https://pay.example/session/abc" :=
  (redirect_on_url "basic" "https://pay.example/session/abc" (by decide)).1

/-- C6: when the request resolves without a `url` field, the run ends in the
error state with exactly "Failed to create checkout session", the error card
is rendered, and the browser location is never assigned. -/
theorem no_url_failure (tier : String) :
    (runEffect true true tier (CheckoutOutcome.resolved none)).error =
      some "Failed to create checkout session" ∧
    (runEffect true true tier (CheckoutOutcome.resolved none)).isLoading = false ∧
    (runEffect true true tier (CheckoutOutcome.resolved none)).location = none ∧
    render true (runEffect true true tier (CheckoutOutcome.resolved none)) =
      Screen.errorCard "Failed to create checkout session" := by
  refine ⟨rfl, rfl, rfl, ?_⟩
  simp [render, runEffect, effectTrace, effectRun, setupSubscription, tryBody,
    urlBranch, applyEv, initialState, noUrlMsg]

/-- C9: a `url` field holding the empty string takes the same branch as an
absent one — JS falsiness — so the run ends in the error state with
"Failed to create checkout session" and the location is never assigned. -/
theorem empty_url_failure (tier : String) :
    (runEffect true true tier (CheckoutOutcome.resolved (some ""))).error =
      some "Failed to create checkout session" ∧
    (runEffect true true tier (CheckoutOutcome.resolved (some ""))).isLoading = false ∧
    (runEffect true true tier (CheckoutOutcome.resolved (some ""))).location = none ∧
    render true (runEffect true true tier (CheckoutOutcome.resolved (some ""))) =
      Screen.errorCard "Failed to create checkout session" := by
  refine ⟨rfl, rfl, rfl, ?_⟩
  simp [render, runEffect, effectTrace, effectRun, setupSubscription, tryBody,
    urlBranch, applyEv, initialState, noUrlMsg]

/-- C10: a rejection with an `Error` whose message is the empty string stores
the empty string in the error field, yet the page renders the fallback
"Redirecting to Checkout" card — `if (error)` is falsy for the empty string —
even though no redirect was initiated. -/
theorem empty_message_renders_fallback (tier : String) :
    (runEffect true true tier
        (CheckoutOutcome.rejected (JsError.jsErr ""))).error = some "" ∧
    (runEffect true true tier
        (CheckoutOutcome.rejected (JsError.jsErr ""))).isLoading = false ∧
    (runEffect true true tier
        (CheckoutOutcome.rejected (JsError.jsErr ""))).location = none ∧
    render true (runEffect true true tier
        (CheckoutOutcome.rejected (JsError.jsErr ""))) = Screen.redirectFallback := by
  refine ⟨rfl, rfl, rfl, ?_⟩
  simp [render, runEffect, effectTrace, effectRun, setupSubscription, tryBody,
    catchHandler, applyEv, initialState]

/-- C1, counterexample: `"gold"` is not a recognized tier name, yet the flow
invokes `createSubscription` with `"gold"`, not with the Basic tier — the
`as` cast at line 22 has no runtime effect and `||` only replaces falsy
values, so an unrecognized non-empty string passes through unchanged. -/
theorem tier_default_counterexample :
    "gold" ∉ recognizedTiers ∧
    parseTier (some "gold") ≠ SubscriptionTier.Basic ∧
    (runEffect true true (parseTier (some "gold"))
        (CheckoutOutcome.resolved none)).calledWith = ["gold"] := by
  refine ⟨by decide, by decide, ?_⟩
  rfl

/-- C1, amended: the requester is invoked with the parsed tier; the parse
yields the Pro tier for `"pro"` and the Basic tier when the parameter is
absent or the empty string, while any other non-empty string — recognized or
not — is passed through unchanged. -/
theorem tier_parsing_amended (q : Option String) (o : CheckoutOutcome) :
    Ev.callCreateSubscription (parseTier q) ∈ effectTrace true true (parseTier q) o ∧
    parseTier (some "pro") = SubscriptionTier.Pro ∧
    parseTier none = SubscriptionTier.Basic ∧
    parseTier (some "") = SubscriptionTier.Basic ∧
    ∀ s : String, s ≠ "" → parseTier (some s) = s := by
  refine ⟨?_, by decide, rfl, rfl, ?_⟩
  · cases o with
    | resolved url =>
      simp [effectTrace, effectRun, setupSubscription, tryBody]
    | rejected e =>
      simp [effectTrace, effectRun, setupSubscription, tryBody, catchHandler]
  · intro s hs
    simp [parseTier, hs]

/-- Witness for C1 (amended): the call event for `tier=pro`, and the
pass-through of the unrecognized value handled by the last conjunct. -/
theorem tier_parsing_amended_witness :
    Ev.callCreateSubscription (parseTier (some "pro")) ∈
      effectTrace true true (parseTier (some "pro"))
        (CheckoutOutcome.resolved (some "https://pay.example/a")) ∧
    parseTier (some "gold2") = "gold2" :=
  ⟨(tier_parsing_amended (some "pro")
      (CheckoutOutcome.resolved (some "https://pay.example/a"))).1,
   (tier_parsing_amended (some "gold2")
      (CheckoutOutcome.resolved none)).2.2.2.2 "gold2" (by decide)⟩

/-- C2, counterexample: when the request resolves with a URL the run never
clears `isLoading`, so the page keeps rendering the loading screen — the
fallback "Redirecting to Checkout" card is not the state rendered. -/
theorem view_state_counterexample :
    render true (runEffect true true "basic"
        (CheckoutOutcome.resolved (some "https://pay.example/session/abc"))) =
      Screen.loading ∧
    render true (runEffect true true "basic"
        (CheckoutOutcome.resolved (some "https://pay.example/session/abc"))) ≠
      Screen.redirectFallback := by
  refine ⟨by decide, by decide⟩

/-- C2, amended: the view starts as the loading screen, and every run of the
flow (authenticated) performs exactly one terminal transition: either exactly
one `setError` with `isLoading` cleared and no redirect (failure), or exactly
one `location` assignment with the error field untouched and the loading
screen still rendered — the code never reaches a distinct "Redirecting" view
state. -/
theorem view_state_single_transition (stripeAvailable : Bool) (tier : String)
    (o : CheckoutOutcome) :
    render true initialState = Screen.loading ∧
    (((effectTrace true stripeAvailable tier o).countP isSetErrorEv = 1 ∧
      (effectTrace true stripeAvailable tier o).countP isSetLocationEv = 0 ∧
      (runEffect true stripeAvailable tier o).error.isSome = true ∧
      (runEffect true stripeAvailable tier o).isLoading = false ∧
      (runEffect true stripeAvailable tier o).location = none) ∨
     ((effectTrace true stripeAvailable tier o).countP isSetErrorEv = 0 ∧
      (effectTrace true stripeAvailable tier o).countP isSetLocationEv = 1 ∧
      (runEffect true stripeAvailable tier o).location.isSome = true ∧
      (runEffect true stripeAvailable tier o).isLoading = true ∧
      (runEffect true stripeAvailable tier o).error = none ∧
      render true (runEffect true stripeAvailable tier o) = Screen.loading)) := by
  refine ⟨by decide, ?_⟩
  cases stripeAvailable with
  | false =>
    left
    simp [effectTrace, effectRun, runEffect, applyEv, initialState,
      isSetErrorEv, isSetLocationEv, List.countP_cons]
  | true =>
    cases o with
    | resolved url =>
      match url with
      | none =>
        left
        simp [effectTrace, effectRun, runEffect, setupSubscription, tryBody,
          urlBranch, applyEv, initialState, isSetErrorEv, isSetLocationEv,
          List.countP_cons]
      | some u =>
        by_cases hu : u = ""
        · left
          simp [effectTrace, effectRun, runEffect, setupSubscription, tryBody,
            urlBranch, hu, applyEv, initialState, isSetErrorEv, isSetLocationEv,
            List.countP_cons]
        · right
          simp [effectTrace, effectRun, runEffect, setupSubscription, tryBody,
            urlBranch, hu, applyEv, initialState, isSetErrorEv, isSetLocationEv,
            List.countP_cons, render]
    | rejected e =>
      left
      cases e <;>
        simp [effectTrace, effectRun, runEffect, setupSubscription, tryBody,
          catchHandler, applyEv, initialState, isSetErrorEv, isSetLocationEv,
          List.countP_cons]

/-- C7, counterexample: the module is loaded while the key is absent; by the
second run the environment holds a key, yet the run still fails with the
configuration error instead of redirecting — line 13 is a module-level
constant, computed once, not re-derived per run. -/
theorem availability_cached_counterexample :
    (twoRuns none (some "pk_live_x") true "basic"
        (CheckoutOutcome.resolved (some "https://pay.example/a"))
        (CheckoutOutcome.resolved (some "https://pay.example/a"))).2.error =
      some cfgErrorMsg ∧
    (twoRuns none (some "pk_live_x") true "basic"
        (CheckoutOutcome.resolved (some "https://pay.example/a"))
        (CheckoutOutcome.resolved (some "https://pay.example/a"))).2 ≠
      runEffect true (isStripeAvailableOf (some "pk_live_x")) "basic"
        (CheckoutOutcome.resolved (some "https://pay.example/a")) := by
  refine ⟨rfl, by decide⟩

/-- C7, amended: the availability predicate is evaluated once, at module
load; every execution of the flow uses that cached value, so each run's
outcome reflects the configuration at load time and is independent of the
configuration current at run time. -/
theorem availability_cached_amended (keyAtLoad k2 k2' : Option String)
    (auth : Bool) (tier : String) (o1 o2 : CheckoutOutcome) :
    twoRuns keyAtLoad k2 auth tier o1 o2 = twoRuns keyAtLoad k2' auth tier o1 o2 ∧
    (twoRuns keyAtLoad k2 auth tier o1 o2).1 =
      runEffect auth (isStripeAvailableOf keyAtLoad) tier o1 ∧
    (twoRuns keyAtLoad k2 auth tier o1 o2).2 =
      runEffect auth (isStripeAvailableOf keyAtLoad) tier o2 :=
  ⟨rfl, rfl, rfl⟩

end Subscribe
